import Mathlib

/-!
Verification of the szurubooru-client query-token layer and the
paginated-result embedding boundary.

Strings are embedded as `List Char`; the Rust single-character
`str::replace` is modelled by a character-by-character substitution,
which coincides with it because every pattern here is one character
long (matches cannot overlap).
-/

namespace SzuruClient

/-- Rust `str::replace` specialised to a single-character pattern `c`,
replacing each occurrence with the string `rep`. -/
def replaceChar (c : Char) (rep : List Char) : List Char → List Char
  | [] => []
  | x :: xs => if x = c then rep ++ replaceChar c rep xs else x :: replaceChar c rep xs

/-- The two-pass escaping used by `QueryToken::token` and
`QueryToken::anonymous` in `tokens.rs`:
`.replace(":", "\\:").replace("-", "\\-")`, colon pass first. -/
def escape (s : List Char) : List Char :=
  replaceChar '-' ['\\', '-'] (replaceChar ':' ['\\', ':'] s)

/-- `QueryToken` from `tokens.rs`: a `key`/`value` pair of strings. -/
structure QueryToken where
  key : List Char
  value : List Char
deriving DecidableEq, Repr

namespace QueryToken

/-- `QueryToken::token`: escape the value, store the key verbatim. -/
def token (key : List Char) (value : List Char) : QueryToken :=
  { key := key, value := escape value }

/-- `QueryToken::sort`: key is literally `"sort"`, value stored verbatim. -/
def sort (value : List Char) : QueryToken :=
  { key := "sort".data, value := value }

/-- `QueryToken::anonymous`: escape the key, value is empty. -/
def anonymous (key : List Char) : QueryToken :=
  { key := escape key, value := [] }

/-- `self.key.starts_with("-")` from `QueryToken::negate`. -/
def startsDash : List Char → Bool
  | '-' :: _ => true
  | _ => false

/-- `QueryToken::negate`: strip a leading `-` from the key if present,
otherwise prepend one; the value is cloned unchanged. -/
def negate (t : QueryToken) : QueryToken :=
  if startsDash t.key then { key := t.key.drop 1, value := t.value }
  else { key := '-' :: t.key, value := t.value }

/-- The `Display` impl for `QueryToken`: `"{key}:{value}"` when the value
is non-empty, otherwise just `"{key}"`. -/
def to_string (t : QueryToken) : List Char :=
  t.key ++ (if t.value = [] then [] else ':' :: t.value)

end QueryToken

/-- `ToQueryString for Vec<QueryToken>`: render each token and
`join(" ")`. -/
def to_query_string (ts : List QueryToken) : List Char :=
  List.intercalate [' '] (ts.map QueryToken.to_string)

example : QueryToken.token "x".data "a:b-c".data =
    { key := "x".data, value := ['a', '\\', ':', 'b', '\\', '-', 'c'] } := by decide

example : to_query_string [QueryToken.token "comment-count".data "1".data] =
    "comment-count:1".data := by decide

/-- `PostSpecialToken` from `tokens.rs`. -/
inductive PostSpecialToken where
  | Liked
  | Disliked
  | Fav
  | Tumbleweed
deriving DecidableEq, Repr

/-- The strum `AsRefStr` kebab-case rendering of `PostSpecialToken`. -/
def PostSpecialToken.as_ref : PostSpecialToken → List Char
  | .Liked => "liked".data
  | .Disliked => "disliked".data
  | .Fav => "fav".data
  | .Tumbleweed => "tumbleweed".data

/-- `QueryToken::special`: delegates to `QueryToken::anonymous` on the
`AsRef<str>` rendering of a `SpecialToken` value. -/
def QueryToken.special (t : PostSpecialToken) : QueryToken :=
  QueryToken.anonymous t.as_ref

/-- The twelve resource token enumerations declared in `tokens.rs`. -/
inductive ResourceTokenEnum where
  | TagNamedToken
  | TagSortToken
  | PostNamedToken
  | PostSortToken
  | PostSpecialToken
  | PoolNamedToken
  | PoolSortToken
  | CommentNamedToken
  | CommentSortToken
  | UserNamedToken
  | UserSortToken
  | SnapshotNamedToken
deriving DecidableEq, Repr

/-- Which enumerations carry an `impl NamedToken for ... {}` in
`tokens.rs` (lines 190, 322, 429, 486, 535, 578). -/
def implsNamedToken : ResourceTokenEnum → Bool
  | .TagNamedToken => true
  | .PostNamedToken => true
  | .PoolNamedToken => true
  | .CommentNamedToken => true
  | .UserNamedToken => true
  | .SnapshotNamedToken => true
  | _ => false

/-- Which enumerations carry an `impl SortableToken for ... {}` in
`tokens.rs` (lines 225, 389, 456, 514, 558). Line 558 reads
`impl SortableToken for UserNamedToken {}`, transcribed as found. -/
def implsSortableToken : ResourceTokenEnum → Bool
  | .TagSortToken => true
  | .PostSortToken => true
  | .PoolSortToken => true
  | .CommentSortToken => true
  | .UserNamedToken => true
  | _ => false

/-- Which enumerations carry an `impl SpecialToken for ... {}` in
`tokens.rs` (line 404). -/
def implsSpecialToken : ResourceTokenEnum → Bool
  | .PostSpecialToken => true
  | _ => false

/-- Number of capability-marker traits an enumeration implements. -/
def capCount (e : ResourceTokenEnum) : Nat :=
  (if implsNamedToken e then 1 else 0) +
  (if implsSortableToken e then 1 else 0) +
  (if implsSpecialToken e then 1 else 0)

/-- Modelled from the spec: `PagedSearchResult` is declared in
`crate::models`, which is not among the provided sources; its fields
follow §3 "Paginated Result" of the spec (`query`, `offset`, `limit`,
`total`, ordered `results`) and match the field accesses in the
`From` impl in `py/mod.rs`. -/
structure PagedSearchResult (α : Type) where
  query : List Char
  offset : Nat
  limit : Nat
  total : Nat
  results : List α
deriving DecidableEq, Repr

/-- `PyPagedSearchResult` from `py/mod.rs`; the `Py<PyList>` of
converted items is modelled as a list of foreign representations. -/
structure PyPagedSearchResult (β : Type) where
  query : List Char
  offset : Nat
  limit : Nat
  total : Nat
  results : List β
deriving DecidableEq, Repr

/-- The `From<PagedSearchResult<T>> for PyPagedSearchResult` conversion
in `py/mod.rs`: build the foreign list by mapping `into_py` (modelled by
`f`) over the items in order, and copy the four scalar fields. -/
def pyPagedFrom {α β : Type} (f : α → β) (v : PagedSearchResult α) : PyPagedSearchResult β :=
  { query := v.query
    offset := v.offset
    limit := v.limit
    total := v.total
    results := v.results.map f }

/-! ## Spec-side definitions

These follow the wording of the spec, to be compared with the code-derived
definitions above. -/

/-- Spec-side escaping, read off the wording of the claim: every `:` becomes
`\:` and every remaining `-` becomes `\-`; since the colon pass inserts
no hyphen, the sequential description collapses to this single
character-wise expansion. -/
def escapeSpec : List Char → List Char
  | [] => []
  | c :: cs =>
    (if c = ':' then ['\\', ':'] else if c = '-' then ['\\', '-'] else [c]) ++ escapeSpec cs

/-- Spec-side collection rendering: the rendering of each token joined by a
single ASCII space in input order; empty collection renders empty. -/
def joinSpaceSpec : List (List Char) → List Char
  | [] => []
  | [s] => s
  | s :: rest => s ++ ' ' :: joinSpaceSpec rest

/-! ## Helper lemmas -/

theorem replaceChar_append (c : Char) (rep : List Char) (l₁ l₂ : List Char) :
    replaceChar c rep (l₁ ++ l₂) = replaceChar c rep l₁ ++ replaceChar c rep l₂ := by
  induction l₁ with
  | nil => rfl
  | cons x xs ih =>
    by_cases hx : x = c <;> simp [replaceChar, hx, ih]

theorem escape_eq_escapeSpec (s : List Char) : escape s = escapeSpec s := by
  induction s with
  | nil => rfl
  | cons c cs ih =>
    by_cases hc : c = ':'
    · simp only [escape, replaceChar, hc, if_pos rfl, replaceChar_append] at *
      simp only [escapeSpec, if_pos rfl]
      rw [← ih]
      rfl
    · by_cases hd : c = '-'
      · simp only [escape, replaceChar, hc, if_neg hc, hd] at *
        simp only [escapeSpec, if_neg (by simp [hd] : ¬('-' : Char) = ':'), if_pos rfl]
        rw [← ih]
        rfl
      · simp only [escape, replaceChar, if_neg hc] at *
        simp only [escapeSpec, if_neg hc, if_neg hd]
        rw [← ih]
        simp [replaceChar, hd]

theorem intercalate_space_eq_joinSpaceSpec (ls : List (List Char)) :
    List.intercalate [' '] ls = joinSpaceSpec ls := by
  induction ls with
  | nil => rfl
  | cons s rest ih =>
    cases rest with
    | nil => simp [List.intercalate, joinSpaceSpec]
    | cons s₂ rest₂ =>
      simp only [List.intercalate, List.intersperse_cons_cons, List.flatten_cons] at *
      rw [ih]
      simp [joinSpaceSpec]

theorem startsDash_cons (c : Char) (l : List Char) :
    QueryToken.startsDash (c :: l) = (c = '-' : Bool) := by
  by_cases hc : c = '-'
  · subst hc; simp [QueryToken.startsDash]
  · simp only [decide_eq_false hc]
    cases l <;> simp [QueryToken.startsDash, hc]

/-- Keys beginning with two `-` characters are where iterated stripping
breaks the negate/negate round trip. -/
def doubleDash : List Char → Bool
  | '-' :: '-' :: _ => true
  | _ => false

/-! ## Claim theorems -/

/-- C1: the capability partition is violated by the code: evaluated at
the two User enumerations, `UserNamedToken` implements both `NamedToken`
and `SortableToken` (the latter via `impl SortableToken for
UserNamedToken {}`, tokens.rs line 558) and `UserSortToken` implements
no capability-marker trait at all, so neither has exactly one. -/
theorem capability_partition_violation :
    capCount ResourceTokenEnum.UserNamedToken = 2 ∧
    capCount ResourceTokenEnum.UserSortToken = 0 := by decide

/-- C2 counterexample: for the token with key `"--a"`, applying `negate`
twice yields key `"a"`, not the original key, refuting the claim for
arbitrary key strings. -/
theorem negate_negate_counterexample :
    ¬ ((QueryToken.mk "--a".data "v".data).negate.negate =
       QueryToken.mk "--a".data "v".data) := by decide

/-- C2 (amended): for every token, `negate` leaves the value unchanged;
and whenever the key does not start with two `-` characters, `negate`
twice restores the token exactly. -/
theorem negate_negate_eq (t : QueryToken) :
    t.negate.value = t.value ∧
    (doubleDash t.key = false → t.negate.negate = t) := by
  obtain ⟨k, v⟩ := t
  constructor
  · simp only [QueryToken.negate]
    split <;> rfl
  · intro h
    cases k with
    | nil => rfl
    | cons c rest =>
      by_cases hc : c = '-'
      · subst hc
        cases rest with
        | nil => rfl
        | cons d rest₂ =>
          by_cases hd : d = '-'
          · subst hd; simp [doubleDash] at h
          · simp [QueryToken.negate, QueryToken.startsDash, startsDash_cons, hd]
      · simp [QueryToken.negate, startsDash_cons, hc, QueryToken.startsDash]

/-- C2 witness: value preservation and the round-trip property
evaluated at the concrete token `abc:xy`, whose key satisfies the
no-double-dash side condition. -/
theorem negate_negate_eq_witness :
    doubleDash "abc".data = false ∧
    (QueryToken.mk "abc".data "xy".data).negate.value = "xy".data ∧
    (QueryToken.mk "abc".data "xy".data).negate.negate =
      QueryToken.mk "abc".data "xy".data :=
  ⟨by decide,
   (negate_negate_eq (QueryToken.mk "abc".data "xy".data)).1,
   (negate_negate_eq (QueryToken.mk "abc".data "xy".data)).2 (by decide)⟩

/-- C3: `token(k, s)` stores the key verbatim and stores as value the
result of replacing every `:` by `\:` first and every remaining `-` by
`\-` second, which coincides with the character-wise spec expansion;
checked also on the example of the spec `token("x", "a:b-c")`. -/
theorem token_escapes_value (k v : List Char) :
    (QueryToken.token k v).key = k ∧
    (QueryToken.token k v).value =
      replaceChar '-' ['\\', '-'] (replaceChar ':' ['\\', ':'] v) ∧
    (QueryToken.token k v).value = escapeSpec v ∧
    (QueryToken.token "x".data "a:b-c".data).value =
      ['a', '\\', ':', 'b', '\\', '-', 'c'] :=
  ⟨rfl, rfl, escape_eq_escapeSpec v, by decide⟩

/-- C4: the embedding conversion maps the item list in order (so the
foreign sequence has the same length) and copies the four scalar fields
by value. -/
theorem paged_conversion_spec {α β : Type} (f : α → β) (v : PagedSearchResult α) :
    (pyPagedFrom f v).results.length = v.results.length ∧
    (pyPagedFrom f v).results = v.results.map f ∧
    (pyPagedFrom f v).query = v.query ∧
    (pyPagedFrom f v).offset = v.offset ∧
    (pyPagedFrom f v).limit = v.limit ∧
    (pyPagedFrom f v).total = v.total :=
  ⟨by simp [pyPagedFrom], rfl, rfl, rfl, rfl, rfl⟩

/-- C5: collection rendering equals the join described in the spec — the rendering of each token
rendering joined by a single ASCII space in input order, the empty
collection rendering to the empty string — and the two-token
example renders exactly as stated. -/
theorem to_query_string_spec (ts : List QueryToken) :
    to_query_string ts = joinSpaceSpec (ts.map QueryToken.to_string) ∧
    to_query_string [] = [] ∧
    to_query_string [QueryToken.token "comment-count".data "1".data,
                     QueryToken.sort "random".data] =
      "comment-count:1 sort:random".data :=
  ⟨intercalate_space_eq_joinSpaceSpec _, rfl, by decide⟩

/-- C6: a token renders as `key:value` when the value is non-empty and
as bare `key` when it is empty; checked on the two examples from the spec. -/
theorem to_string_spec (t : QueryToken) :
    t.to_string = (if t.value = [] then t.key else t.key ++ ':' :: t.value) ∧
    (QueryToken.token "score".data "".data).to_string = "score".data ∧
    (QueryToken.token "tag".data "cat".data).to_string = "tag:cat".data := by
  refine ⟨?_, by decide, by decide⟩
  by_cases h : t.value = [] <;> simp [QueryToken.to_string, h]

/-- C7: `anonymous(k)` escapes the key with the same two-step
substitution used for values and sets the value empty, and `special` is
the same construction applied to the rendering of a Special-class
identifier; checked on the spec example `anonymous("re:zero")` example. -/
theorem anonymous_special_spec :
    (∀ k : List Char, (QueryToken.anonymous k).key = escapeSpec k ∧
        (QueryToken.anonymous k).value = []) ∧
    (∀ t : PostSpecialToken,
        QueryToken.special t = QueryToken.anonymous t.as_ref) ∧
    (QueryToken.anonymous "re:zero".data).key =
      ['r', 'e', '\\', ':', 'z', 'e', 'r', 'o'] :=
  ⟨fun k => ⟨escape_eq_escapeSpec k, rfl⟩, fun _ => rfl, by decide⟩

/-- C8: `sort(v)` has key exactly `"sort"` and value `v` verbatim, with
no escaping applied. -/
theorem sort_spec (v : List Char) :
    (QueryToken.sort v).key = "sort".data ∧ (QueryToken.sort v).value = v :=
  ⟨rfl, rfl⟩

/-- C9 counterexample: a paginated result container with `limit = 2`
and three items is constructible, and it violates
`results.length ≤ limit`; no construction path validates the bound. -/
theorem paged_limit_counterexample :
    ¬ ((PagedSearchResult.mk "q".data 0 2 5 ([0, 1, 2] : List Nat)).results.length ≤
       (PagedSearchResult.mk "q".data 0 2 5 ([0, 1, 2] : List Nat)).limit) := by
  decide

/-- C9 (amended): construction does not enforce `results.length ≤
limit`, but the conversion to the host-runtime record preserves it:
whenever the source container satisfies the bound, so does the
converted container (items are mapped one-to-one and `limit` is
copied). -/
theorem paged_limit_preserved {α β : Type} (f : α → β) (v : PagedSearchResult α)
    (h : v.results.length ≤ v.limit) :
    (pyPagedFrom f v).results.length ≤ (pyPagedFrom f v).limit := by
  simpa [pyPagedFrom] using h

/-- C9 witness: the preservation theorem evaluated on a concrete
two-item container with `limit = 2`. -/
theorem paged_limit_preserved_witness :
    (PagedSearchResult.mk "q".data 0 2 5 ([7, 8] : List Nat)).results.length ≤
      (PagedSearchResult.mk "q".data 0 2 5 ([7, 8] : List Nat)).limit ∧
    (pyPagedFrom (fun n : Nat => n + 1)
        (PagedSearchResult.mk "q".data 0 2 5 ([7, 8] : List Nat))).results.length ≤
      (pyPagedFrom (fun n : Nat => n + 1)
        (PagedSearchResult.mk "q".data 0 2 5 ([7, 8] : List Nat))).limit :=
  ⟨by decide,
   paged_limit_preserved (fun n : Nat => n + 1)
     (PagedSearchResult.mk "q".data 0 2 5 ([7, 8] : List Nat)) (by decide)⟩

/-- C10: collection rendering is not injective — the escaping never
touches the ASCII space, so the single anonymous token `"a b"` and the
two anonymous tokens `"a"`, `"b"` are distinct collections with the
same rendered query string. -/
theorem to_query_string_not_injective :
    escape " ".data = " ".data ∧
    [QueryToken.anonymous "a b".data] ≠
      [QueryToken.anonymous "a".data, QueryToken.anonymous "b".data] ∧
    to_query_string [QueryToken.anonymous "a b".data] =
      to_query_string [QueryToken.anonymous "a".data, QueryToken.anonymous "b".data] := by
  refine ⟨by decide, by decide, by decide⟩

end SzuruClient
